import Mathlib

/-!
Verification of the SAC API relay (main.py).

A shallow embedding of the Session Client (SACClient) and of the
POST /api/request relay endpoint (execute_sac_request).

The upstream world (token endpoint, CSRF endpoint, main API) is modelled as an
oracle `World` supplying the response to the n-th call of each kind, plus a
timeline of successive `datetime.now().timestamp()` readings.  Client methods
become explicit state-passing functions on `ClientState`, threading a `Trace`
that records how many token/CSRF-endpoint calls were issued and the full list
of main upstream requests (method, URL, headers, payload) in order.  Exceptions
(`raise_for_status`, `KeyError`, JSON decode errors, `requests` transport
errors) become an `Except PyExn` result.  Timestamps are modelled as `Int`
epoch seconds.
-/

/-- A JSON value, for upstream response bodies and request payloads. -/
inductive Json where
  | str (s : String)
  | num (n : Int)
  | bool (b : Bool)
  | null
  | arr (xs : List Json)
  | obj (fields : List (String × Json))

/-- Outcome of one HTTP call at the transport level: a response, or one of the
two `requests` transport exceptions distinguished by the relay
(`requests.exceptions.Timeout`, `requests.exceptions.ConnectionError`). -/
inductive NetResult (α : Type) where
  | ok (val : α)
  | timeout
  | connError

/-- Python exceptions that can escape the Session Client. -/
inductive PyExn where
  /-- An HTTPError raised by raise_for_status on a 4xx/5xx status. -/
  | httpError (status : Nat)
  /-- A KeyError from reading the access_token field when it is missing. -/
  | keyError
  /-- JSON decode error from res.json on a non-JSON body. -/
  | jsonError
  /-- Transport timeout, requests.exceptions.Timeout. -/
  | timeout
  /-- Connection failure, requests.exceptions.ConnectionError. -/
  | connectionError
deriving DecidableEq

/-- Parsed JSON body of a token-endpoint response, as the Python code reads
it: the access_token field and the expires_in field with default 3600. -/
structure TokenData where
  access_token : Option String
  expires_in : Option Int

/-- A token-endpoint response: its status and its body as JSON
(none when res.json would fail to parse). -/
structure TokenResponse where
  status : Nat
  body : Option TokenData

/-- A CSRF-endpoint response: its status and its x-csrf-token response
header, which may be absent. -/
structure CsrfResponse where
  status : Nat
  token : Option String

/-- A main-API upstream response: status, raw text, headers, and the result
of response.json, none when the body is not valid JSON. -/
structure HttpResponse where
  status_code : Nat
  text : String
  headers : List (String × String)
  jsonBody : Option Json

/-- The headers dict built by the sync request.  Here x_csrf_token = none
means the x-csrf-token key is absent from the dict; some v means the key is
present with value v, where v is an Option String because the CSRF fetch
returns the x-csrf-token response header, which can be Python None. -/
structure Headers where
  authorization : String
  x_sap_sac_custom_auth : String
  content_type : String
  x_csrf_token : Option (Option String)

/-- One upstream main-API request as issued by session.request. -/
structure SentRequest where
  method : String
  url : String
  headers : Headers
  payload : Option Json

/-- The mutable token state of a SACClient instance: access_token,
token_expiry and csrf_token. -/
structure ClientState where
  access_token : Option String
  token_expiry : Int
  csrf_token : Option String

/-- The state set up by the SACClient constructor: access_token = None,
token_expiry = 0, csrf_token = None. -/
def freshClientState : ClientState :=
  { access_token := none, token_expiry := 0, csrf_token := none }

/-- The oracle for one execution: the n-th clock reading taken by
datetime.now, and the outcome of the n-th call to each of the three upstream
endpoints. -/
structure World where
  timeline : Nat → Int
  tokenResponses : Nat → NetResult TokenResponse
  csrfResponses : Nat → NetResult CsrfResponse
  mainResponses : Nat → NetResult HttpResponse

/-- Execution record: next timeline index, number of token-endpoint and
CSRF-endpoint calls issued so far, and the main upstream requests issued so
far, in order. -/
structure Trace where
  clock : Nat
  tokenCalls : Nat
  csrfCalls : Nat
  mainReqs : List SentRequest

/-- The empty trace at the start of a relay call. -/
def trace0 : Trace := { clock := 0, tokenCalls := 0, csrfCalls := 0, mainReqs := [] }

/-- Python string truthiness of an optional string: None and the empty
string are falsy. -/
def truthyOpt : Option String → Bool
  | none => false
  | some s => !(s == "")

/-- The raise_for_status method raises exactly on 4xx/5xx statuses. -/
def raisesForStatus (s : Nat) : Bool := 400 ≤ s && s < 600

/-- Test whether the first list starts the second list. -/
def hasPrefixChars : List Char → List Char → Bool
  | [], _ => true
  | _ :: _, [] => false
  | a :: as, b :: bs => a == b && hasPrefixChars as bs

/-- Test whether the needle occurs contiguously inside the list. -/
def hasInfixChars (needle : List Char) : List Char → Bool
  | [] => hasPrefixChars needle []
  | b :: bs => hasPrefixChars needle (b :: bs) || hasInfixChars needle bs

/-- Python substring containment, needle in hay; an empty needle is always
contained. -/
def strContains (hay needle : String) : Bool :=
  hasInfixChars needle.toList hay.toList

/-- Python startswith on strings. -/
def strStartsWith (s pre : String) : Bool :=
  hasPrefixChars pre.toList s.toList

/-- Python upper on strings, ASCII, which covers every string this code
builds. -/
def strToUpper (s : String) : String :=
  ⟨s.data.map Char.toUpper⟩

/-- Lower-casing for the case-insensitive header lookup of
`requests.structures.CaseInsensitiveDict`. -/
def strToLower (s : String) : String :=
  ⟨s.data.map Char.toLower⟩

/-- The refresh path of the authenticate method, everything after the cache
check: POST the token endpoint, raise_for_status, parse JSON, read
access_token, set expiry to now plus expires_in minus 300. -/
def authRefresh (w : World) (st : ClientState) (tr : Trace) :
    Except PyExn String × ClientState × Trace :=
  let tr1 : Trace := { tr with tokenCalls := tr.tokenCalls + 1 }
  match w.tokenResponses tr.tokenCalls with
  | .timeout => (.error .timeout, st, tr1)
  | .connError => (.error .connectionError, st, tr1)
  | .ok r =>
    if raisesForStatus r.status then (.error (.httpError r.status), st, tr1)
    else
      match r.body with
      | none => (.error .jsonError, st, tr1)
      | some data =>
        match data.access_token with
        | none => (.error .keyError, st, tr1)
        | some tok =>
          let now := w.timeline tr1.clock
          let tr2 : Trace := { tr1 with clock := tr1.clock + 1 }
          let st1 : ClientState :=
            { st with access_token := some tok
                      token_expiry := now + data.expires_in.getD 3600 - 300 }
          (.ok tok, st1, tr2)

/-- Embeds the authenticate method of SACClient: return the cached token
while the stored access token is truthy and now is below the stored expiry;
otherwise refresh.  The clock reading of the cache check is only taken when
the stored access token is truthy, by Python short-circuit evaluation. -/
def pyAuthenticate (w : World) (st : ClientState) (tr : Trace) :
    Except PyExn String × ClientState × Trace :=
  if truthyOpt st.access_token then
    let now := w.timeline tr.clock
    let tr1 : Trace := { tr with clock := tr.clock + 1 }
    if now < st.token_expiry then (.ok (st.access_token.getD ""), st, tr1)
    else authRefresh w st tr1
  else authRefresh w st tr

/-- Embeds the CSRF fetch method of SACClient: authenticate, GET the CSRF
endpoint, raise_for_status, cache and return the x-csrf-token response
header. -/
def pyFetchCsrf (w : World) (st : ClientState) (tr : Trace) :
    Except PyExn (Option String) × ClientState × Trace :=
  match pyAuthenticate w st tr with
  | (.error e, st1, tr1) => (.error e, st1, tr1)
  | (.ok _, st1, tr1) =>
    let tr2 : Trace := { tr1 with csrfCalls := tr1.csrfCalls + 1 }
    match w.csrfResponses tr1.csrfCalls with
    | .timeout => (.error .timeout, st1, tr2)
    | .connError => (.error .connectionError, st1, tr2)
    | .ok r =>
      if raisesForStatus r.status then (.error (.httpError r.status), st1, tr2)
      else (.ok r.token, { st1 with csrf_token := r.token }, tr2)

/-- Builds the URL: base_url plus endpoint when the endpoint starts with a
slash, else base_url plus a slash plus the endpoint. -/
def buildUrl (baseUrl endpoint : String) : String :=
  if strStartsWith endpoint "/" then baseUrl ++ endpoint
  else baseUrl ++ "/" ++ endpoint

/-- Issue one main upstream request, recording it in the trace; the n-th
main response of the oracle answers the n-th recorded request. -/
def sendMain (w : World) (st : ClientState) (tr : Trace) (method url : String)
    (hdrs : Headers) (payload : Option Json) :
    Except PyExn HttpResponse × ClientState × Trace :=
  let n := tr.mainReqs.length
  let tr1 : Trace := { tr with mainReqs := tr.mainReqs ++ [⟨method, url, hdrs, payload⟩] }
  match w.mainResponses n with
  | .ok r => (.ok r, st, tr1)
  | .timeout => (.error .timeout, st, tr1)
  | .connError => (.error .connectionError, st, tr1)

/-- The CSRF-retry condition of the sync request: status 403 and the
uppercased response text contains CSRF. -/
def retryCond (r : HttpResponse) : Bool :=
  r.status_code == 403 && strContains (strToUpper r.text) "CSRF"

/-- The tail of the sync request from the first session.request on: issue
the request; if the response is a 403 whose body mentions CSRF, force a CSRF
fetch, overwriting only the x-csrf-token key of the same headers dict, and
re-issue the identical request once, returning whatever the second attempt
yields. -/
def issueAndRetry (w : World) (st : ClientState) (tr : Trace) (method url : String)
    (hdrs : Headers) (payload : Option Json) :
    Except PyExn HttpResponse × ClientState × Trace :=
  match sendMain w st tr method url hdrs payload with
  | (.error e, st1, tr1) => (.error e, st1, tr1)
  | (.ok r, st1, tr1) =>
    if retryCond r then
      match pyFetchCsrf w st1 tr1 with
      | (.error e, st2, tr2) => (.error e, st2, tr2)
      | (.ok t, st2, tr2) =>
        sendMain w st2 tr2 method url { hdrs with x_csrf_token := some t } payload
    else (.ok r, st1, tr1)

/-- Test whether the uppercased method is POST, PUT, DELETE or PATCH. -/
def isMutating (method : String) : Bool :=
  (["POST", "PUT", "DELETE", "PATCH"]).contains (strToUpper method)

/-- Embeds the sync request method of SACClient: build the URL, build the
headers dict calling authenticate, add x-csrf-token for mutating methods
using the cached CSRF token or a fresh fetch, then issue with the one-shot
CSRF retry. -/
def pySyncRequest (w : World) (baseUrl : String) (st : ClientState) (tr : Trace)
    (method endpoint : String) (payload : Option Json) :
    Except PyExn HttpResponse × ClientState × Trace :=
  let url := buildUrl baseUrl endpoint
  match pyAuthenticate w st tr with
  | (.error e, st1, tr1) => (.error e, st1, tr1)
  | (.ok atok, st1, tr1) =>
    let hdrs : Headers :=
      { authorization := "Bearer " ++ atok
        x_sap_sac_custom_auth := "true"
        content_type := "application/json"
        x_csrf_token := none }
    if isMutating method then
      if truthyOpt st1.csrf_token then
        issueAndRetry w st1 tr1 (strToUpper method) url
          { hdrs with x_csrf_token := some st1.csrf_token } payload
      else
        match pyFetchCsrf w st1 tr1 with
        | (.error e, st2, tr2) => (.error e, st2, tr2)
        | (.ok t, st2, tr2) =>
          issueAndRetry w st2 tr2 (strToUpper method) url
            { hdrs with x_csrf_token := some t } payload
    else issueAndRetry w st1 tr1 (strToUpper method) url hdrs payload

/-- The envelope body relayed back to the UI: parsed JSON or raw text. -/
inductive Body where
  | json (j : Json)
  | text (s : String)

/-- Result of one relay call: the success envelope with status, body and
upstream headers echoed, or a FastAPI HTTPException. -/
inductive RelayResult where
  | ok (status_code : Nat) (body : Body) (headers : List (String × String))
  | httpException (status : Nat) (detail : String)

/-- Header lookup on a response: case-insensitive key comparison, as in the
CaseInsensitiveDict of requests. -/
def headerGet (hs : List (String × String)) (key : String) : Option String :=
  (hs.find? (fun kv => strToLower kv.1 == strToLower key)).map Prod.snd

/-- The body re-encoding of the relay endpoint: if the upstream Content-Type
contains application/json, try the parsed JSON and fall back to the raw
text; otherwise always the raw text. -/
def decodeBody (r : HttpResponse) : Body :=
  let content_type := (headerGet r.headers "Content-Type").getD ""
  if strContains content_type "application/json" then
    match r.jsonBody with
    | some j => .json j
    | none => .text r.text
  else .text r.text

/-- Renders the detail string of the generic 500 handler, built from the
exception kind and message. -/
def describeExn : PyExn → String
  | .httpError _ => "HTTPError: upstream returned an error status"
  | .keyError => "KeyError: access_token"
  | .jsonError => "JSONDecodeError: response body is not valid JSON"
  | .timeout => "Timeout"
  | .connectionError => "ConnectionError"

/-- The full run of one POST /api/request call: a fresh SACClient with
empty token state and empty trace executing the sync request. -/
def relayRun (w : World) (baseUrl method endpoint : String) (payload : Option Json) :
    Except PyExn HttpResponse × ClientState × Trace :=
  pySyncRequest w baseUrl freshClientState trace0 method endpoint payload

/-- Embeds the relay endpoint execute_sac_request: run the client, re-encode
the body, echo status and headers; map Timeout to 504, ConnectionError to
502, anything else raised to 500. -/
def relay (w : World) (baseUrl method endpoint : String) (payload : Option Json) :
    RelayResult :=
  match relayRun w baseUrl method endpoint payload with
  | (.ok r, _, _) => .ok r.status_code (decodeBody r) r.headers
  | (.error .timeout, _, _) => .httpException 504 "SAC API timeout"
  | (.error .connectionError, _, _) => .httpException 502 "Cannot connect to SAC"
  | (.error e, _, _) => .httpException 500 (describeExn e)

/-! ## Bookkeeping lemmas about the trace -/

theorem raisesForStatus_eq_true_iff (s : Nat) :
    raisesForStatus s = true ↔ 400 ≤ s ∧ s < 600 := by
  simp [raisesForStatus]

theorem authRefresh_tokenCalls (w : World) (st : ClientState) (tr : Trace) :
    ((authRefresh w st tr).2.2).tokenCalls = tr.tokenCalls + 1 := by
  unfold authRefresh
  repeat' split
  all_goals rfl

theorem authRefresh_csrfCalls (w : World) (st : ClientState) (tr : Trace) :
    ((authRefresh w st tr).2.2).csrfCalls = tr.csrfCalls := by
  unfold authRefresh
  repeat' split
  all_goals rfl

theorem authRefresh_mainReqs (w : World) (st : ClientState) (tr : Trace) :
    ((authRefresh w st tr).2.2).mainReqs = tr.mainReqs := by
  unfold authRefresh
  repeat' split
  all_goals rfl

theorem pyAuthenticate_mainReqs (w : World) (st : ClientState) (tr : Trace) :
    ((pyAuthenticate w st tr).2.2).mainReqs = tr.mainReqs := by
  simp only [pyAuthenticate]
  split
  · split
    · rfl
    · exact authRefresh_mainReqs w st _
  · exact authRefresh_mainReqs w st tr

theorem pyAuthenticate_csrfCalls (w : World) (st : ClientState) (tr : Trace) :
    ((pyAuthenticate w st tr).2.2).csrfCalls = tr.csrfCalls := by
  simp only [pyAuthenticate]
  split
  · split
    · rfl
    · exact authRefresh_csrfCalls w st _
  · exact authRefresh_csrfCalls w st tr

theorem pyAuthenticate_tokenCalls_le (w : World) (st : ClientState) (tr : Trace) :
    tr.tokenCalls ≤ ((pyAuthenticate w st tr).2.2).tokenCalls := by
  simp only [pyAuthenticate]
  split
  · split
    · exact Nat.le_refl _
    · have h := authRefresh_tokenCalls w st { tr with clock := tr.clock + 1 }
      rw [h]
      exact Nat.le_succ _
  · have h := authRefresh_tokenCalls w st tr
    rw [h]
    exact Nat.le_succ _

theorem pyFetchCsrf_mainReqs (w : World) (st : ClientState) (tr : Trace) :
    ((pyFetchCsrf w st tr).2.2).mainReqs = tr.mainReqs := by
  unfold pyFetchCsrf
  have hA := pyAuthenticate_mainReqs w st tr
  rcases h : pyAuthenticate w st tr with ⟨res, st1, tr1⟩
  rw [h] at hA
  cases res with
  | error e => exact hA
  | ok a =>
    dsimp only
    repeat' split
    all_goals exact hA

theorem pyFetchCsrf_tokenCalls_le (w : World) (st : ClientState) (tr : Trace) :
    tr.tokenCalls ≤ ((pyFetchCsrf w st tr).2.2).tokenCalls := by
  unfold pyFetchCsrf
  have hA := pyAuthenticate_tokenCalls_le w st tr
  rcases h : pyAuthenticate w st tr with ⟨res, st1, tr1⟩
  rw [h] at hA
  cases res with
  | error e => exact hA
  | ok a =>
    dsimp only
    repeat' split
    all_goals exact hA

theorem sendMain_trace (w : World) (st : ClientState) (tr : Trace) (m url : String)
    (hdrs : Headers) (p : Option Json) :
    (sendMain w st tr m url hdrs p).2.2 =
      { tr with mainReqs := tr.mainReqs ++ [⟨m, url, hdrs, p⟩] } := by
  simp only [sendMain]
  split
  all_goals rfl

theorem sendMain_state (w : World) (st : ClientState) (tr : Trace) (m url : String)
    (hdrs : Headers) (p : Option Json) :
    (sendMain w st tr m url hdrs p).2.1 = st := by
  simp only [sendMain]
  split
  all_goals rfl

theorem sendMain_ok (w : World) (st : ClientState) (tr : Trace) (m url : String)
    (hdrs : Headers) (p : Option Json) (r : HttpResponse)
    (h : w.mainResponses tr.mainReqs.length = .ok r) :
    sendMain w st tr m url hdrs p =
      (.ok r, st, { tr with mainReqs := tr.mainReqs ++ [⟨m, url, hdrs, p⟩] }) := by
  simp only [sendMain]
  rw [h]

/-! ## Case equations for the token refresh -/

theorem authRefresh_httpError (w : World) (st : ClientState) (tr : Trace)
    (r : TokenResponse)
    (hresp : w.tokenResponses tr.tokenCalls = .ok r)
    (hrs : raisesForStatus r.status = true) :
    authRefresh w st tr =
      (.error (.httpError r.status), st, { tr with tokenCalls := tr.tokenCalls + 1 }) := by
  simp only [authRefresh]
  rw [hresp]
  simp [hrs]

theorem authRefresh_jsonError (w : World) (st : ClientState) (tr : Trace)
    (r : TokenResponse)
    (hresp : w.tokenResponses tr.tokenCalls = .ok r)
    (hrs : raisesForStatus r.status = false)
    (hb : r.body = none) :
    authRefresh w st tr =
      (.error .jsonError, st, { tr with tokenCalls := tr.tokenCalls + 1 }) := by
  simp only [authRefresh]
  rw [hresp]
  simp [hrs, hb]

theorem authRefresh_keyError (w : World) (st : ClientState) (tr : Trace)
    (r : TokenResponse) (d : TokenData)
    (hresp : w.tokenResponses tr.tokenCalls = .ok r)
    (hrs : raisesForStatus r.status = false)
    (hb : r.body = some d)
    (ha : d.access_token = none) :
    authRefresh w st tr =
      (.error .keyError, st, { tr with tokenCalls := tr.tokenCalls + 1 }) := by
  simp only [authRefresh]
  rw [hresp]
  simp [hrs, hb, ha]

theorem authRefresh_success (w : World) (st : ClientState) (tr : Trace)
    (r : TokenResponse) (d : TokenData) (tok : String)
    (hresp : w.tokenResponses tr.tokenCalls = .ok r)
    (hrs : raisesForStatus r.status = false)
    (hb : r.body = some d)
    (ha : d.access_token = some tok) :
    authRefresh w st tr =
      (.ok tok,
       { st with access_token := some tok
                 token_expiry := w.timeline tr.clock + d.expires_in.getD 3600 - 300 },
       { tr with tokenCalls := tr.tokenCalls + 1, clock := tr.clock + 1 }) := by
  simp only [authRefresh]
  rw [hresp]
  simp [hrs, hb, ha]

/-! ## Cache behaviour of the access token -/

theorem pyAuthenticate_cacheHit (w : World) (st : ClientState) (tr : Trace) (s : String)
    (hs : st.access_token = some s) (hne : s ≠ "")
    (hlt : w.timeline tr.clock < st.token_expiry) :
    pyAuthenticate w st tr = (.ok s, st, { tr with clock := tr.clock + 1 }) := by
  simp only [pyAuthenticate, truthyOpt, hs]
  simp [hne, hlt]

theorem pyAuthenticate_miss_tokenCalls (w : World) (st : ClientState) (tr : Trace)
    (h : truthyOpt st.access_token = false ∨ st.token_expiry ≤ w.timeline tr.clock) :
    ((pyAuthenticate w st tr).2.2).tokenCalls = tr.tokenCalls + 1 := by
  simp only [pyAuthenticate]
  rcases h with h | h
  · rw [h]
    simp only [Bool.false_eq_true, if_false]
    exact authRefresh_tokenCalls w st tr
  · cases ht : truthyOpt st.access_token with
    | false =>
      simp only [Bool.false_eq_true, if_false]
      exact authRefresh_tokenCalls w st tr
    | true =>
      simp only [if_true]
      rw [if_neg (by omega)]
      have := authRefresh_tokenCalls w st { tr with clock := tr.clock + 1 }
      rw [this]

/-! ## Case equations for the request/retry phase -/

theorem issueAndRetry_retry (w : World) (st : ClientState) (tr : Trace)
    (m url : String) (hdrs : Headers) (p : Option Json) (r : HttpResponse)
    (hfirst : w.mainResponses tr.mainReqs.length = .ok r)
    (hcond : retryCond r = true) :
    issueAndRetry w st tr m url hdrs p =
      (match pyFetchCsrf w st { tr with mainReqs := tr.mainReqs ++ [⟨m, url, hdrs, p⟩] } with
       | (.error e, st2, tr2) => (.error e, st2, tr2)
       | (.ok t, st2, tr2) =>
         sendMain w st2 tr2 m url { hdrs with x_csrf_token := some t } p) := by
  simp only [issueAndRetry]
  rw [sendMain_ok w st tr m url hdrs p r hfirst]
  simp [hcond]

theorem issueAndRetry_noRetry (w : World) (st : ClientState) (tr : Trace)
    (m url : String) (hdrs : Headers) (p : Option Json) (r : HttpResponse)
    (hfirst : w.mainResponses tr.mainReqs.length = .ok r)
    (hcond : retryCond r = false) :
    issueAndRetry w st tr m url hdrs p =
      (.ok r, st, { tr with mainReqs := tr.mainReqs ++ [⟨m, url, hdrs, p⟩] }) := by
  simp only [issueAndRetry]
  rw [sendMain_ok w st tr m url hdrs p r hfirst]
  simp [hcond]

theorem issueAndRetry_tokenCalls_le (w : World) (st : ClientState) (tr : Trace)
    (m url : String) (hdrs : Headers) (p : Option Json) :
    tr.tokenCalls ≤ ((issueAndRetry w st tr m url hdrs p).2.2).tokenCalls := by
  simp only [issueAndRetry]
  have htr1 := sendMain_trace w st tr m url hdrs p
  rcases hS : sendMain w st tr m url hdrs p with ⟨res, st1, tr1⟩
  rw [hS] at htr1
  have htr : tr1 = { tr with mainReqs := tr.mainReqs ++ [⟨m, url, hdrs, p⟩] } := htr1
  have h1 : tr1.tokenCalls = tr.tokenCalls := by rw [htr]
  cases res with
  | error e => exact Nat.le_of_eq h1.symm
  | ok r =>
    dsimp only
    split
    · have hF := pyFetchCsrf_tokenCalls_le w st1 tr1
      rcases hFc : pyFetchCsrf w st1 tr1 with ⟨res2, st2, tr2⟩
      rw [hFc] at hF
      cases res2 with
      | error e => exact h1 ▸ hF
      | ok t =>
        dsimp only
        have h2 := sendMain_trace w st2 tr2 m url { hdrs with x_csrf_token := some t } p
        rw [h2]
        exact h1 ▸ hF
    · exact Nat.le_of_eq h1.symm

theorem issueAndRetry_mainReqs_shape (w : World) (st : ClientState) (tr : Trace)
    (m url : String) (hdrs : Headers) (p : Option Json) :
    ∃ rest, ((issueAndRetry w st tr m url hdrs p).2.2).mainReqs =
      tr.mainReqs ++ ⟨m, url, hdrs, p⟩ :: rest := by
  simp only [issueAndRetry]
  have htr1 := sendMain_trace w st tr m url hdrs p
  rcases hS : sendMain w st tr m url hdrs p with ⟨res, st1, tr1⟩
  rw [hS] at htr1
  have htr : tr1 = { tr with mainReqs := tr.mainReqs ++ [⟨m, url, hdrs, p⟩] } := htr1
  have h1 : tr1.mainReqs = tr.mainReqs ++ [⟨m, url, hdrs, p⟩] := by rw [htr]
  cases res with
  | error e => exact ⟨[], h1⟩
  | ok r =>
    dsimp only
    split
    · have hF := pyFetchCsrf_mainReqs w st1 tr1
      rcases hFc : pyFetchCsrf w st1 tr1 with ⟨res2, st2, tr2⟩
      rw [hFc] at hF
      cases res2 with
      | error e => exact ⟨[], hF.trans h1⟩
      | ok t =>
        dsimp only
        have h2 := sendMain_trace w st2 tr2 m url { hdrs with x_csrf_token := some t } p
        rw [h2]
        refine ⟨[⟨m, url, { hdrs with x_csrf_token := some t }, p⟩], ?_⟩
        rw [hF, h1]
        simp
    · exact ⟨[], h1⟩

theorem pySyncRequest_tokenCalls_le (w : World) (baseUrl : String) (st : ClientState)
    (tr : Trace) (m e : String) (p : Option Json) :
    ((pyAuthenticate w st tr).2.2).tokenCalls ≤
      ((pySyncRequest w baseUrl st tr m e p).2.2).tokenCalls := by
  simp only [pySyncRequest]
  rcases hA : pyAuthenticate w st tr with ⟨res, st1, tr1⟩
  show tr1.tokenCalls ≤ _
  cases res with
  | error err => exact Nat.le_refl _
  | ok atok =>
    dsimp only
    split
    · split
      · exact issueAndRetry_tokenCalls_le w st1 tr1 _ _ _ p
      · have hF := pyFetchCsrf_tokenCalls_le w st1 tr1
        rcases hFc : pyFetchCsrf w st1 tr1 with ⟨res2, st2, tr2⟩
        rw [hFc] at hF
        have hF2 : tr1.tokenCalls ≤ tr2.tokenCalls := hF
        cases res2 with
        | error err => exact hF2
        | ok t =>
          dsimp only
          exact hF2.trans (issueAndRetry_tokenCalls_le w st2 tr2 _ _ _ p)
    · exact issueAndRetry_tokenCalls_le w st1 tr1 _ _ _ p

/-! ## String facts -/

theorem strMk_append (l m : List Char) : String.mk l ++ String.mk m = String.mk (l ++ m) := rfl

theorem strAppend_assoc (a b c : String) : a ++ b ++ c = a ++ (b ++ c) := by
  rcases a with ⟨a⟩
  rcases b with ⟨b⟩
  rcases c with ⟨c⟩
  show String.mk ((a ++ b) ++ c) = String.mk (a ++ (b ++ c))
  rw [List.append_assoc]

theorem hasPrefixChars_slash {l : List Char} (h : hasPrefixChars ['/'] l = true) :
    ∃ cs, l = '/' :: cs := by
  cases l with
  | nil => simp [hasPrefixChars] at h
  | cons c cs =>
    simp only [hasPrefixChars, Bool.and_eq_true, beq_iff_eq] at h
    exact ⟨cs, by rw [h.1]⟩

theorem retryCond_eq_true_iff (r : HttpResponse) :
    retryCond r = true ↔
      (r.status_code = 403 ∧ strContains (strToUpper r.text) "CSRF" = true) := by
  simp [retryCond]

/-! ## C4: endpoint normalisation -/

/-- C4, counterexample: the endpoint `//version` yields the URL
`base_url//version`, contradicting the claim that no endpoint value ever
yields a double slash after the base URL. -/
theorem claim_C4_counterexample :
    buildUrl "https://sac.example.com" "//version" = "https://sac.example.com//version" := rfl

/-- C4, amended: `execute` prefixes a slash exactly when the endpoint does not
already start with one, so `version` and `/version` both resolve to
`base_url/version` and the slash is never missing; but endpoints that
already start with a slash are passed through unchanged, so an endpoint
starting with two slashes does produce a double slash. -/
theorem claim_C4_url_normalisation (baseUrl endpoint : String) :
    buildUrl baseUrl "version" = baseUrl ++ "/version" ∧
    buildUrl baseUrl "/version" = baseUrl ++ "/version" ∧
    (strStartsWith endpoint "/" = true → buildUrl baseUrl endpoint = baseUrl ++ endpoint) ∧
    (strStartsWith endpoint "/" = false →
      buildUrl baseUrl endpoint = baseUrl ++ "/" ++ endpoint) ∧
    (∃ tail : String, buildUrl baseUrl endpoint = baseUrl ++ "/" ++ tail) := by
  refine ⟨?_, ?_, ?_, ?_, ?_⟩
  · show baseUrl ++ "/" ++ "version" = baseUrl ++ "/version"
    rw [strAppend_assoc]
    rfl
  · rfl
  · intro h
    simp [buildUrl, h]
  · intro h
    simp [buildUrl, h]
  · cases hsw : strStartsWith endpoint "/" with
    | false =>
      exact ⟨endpoint, by simp [buildUrl, hsw]⟩
    | true =>
      have hpre : hasPrefixChars ['/'] endpoint.data = true := hsw
      rcases hasPrefixChars_slash hpre with ⟨cs, hcs⟩
      refine ⟨⟨cs⟩, ?_⟩
      have hurl : buildUrl baseUrl endpoint = baseUrl ++ endpoint := by
        simp [buildUrl, hsw]
      rw [hurl, strAppend_assoc]
      rcases endpoint with ⟨l⟩
      rcases baseUrl with ⟨b⟩
      simp only at hcs
      rw [hcs]
      rfl

/-- C4, witness: concrete endpoints exercising both normalisation branches. -/
theorem claim_C4_witness :
    buildUrl "https://h" "version" = "https://h" ++ "/version" ∧
    buildUrl "https://h" "nope" = "https://h" ++ "/" ++ "nope" ∧
    buildUrl "https://h" "/ok" = "https://h" ++ "/ok" :=
  ⟨(claim_C4_url_normalisation "https://h" "nope").1,
   (claim_C4_url_normalisation "https://h" "nope").2.2.2.1 rfl,
   (claim_C4_url_normalisation "https://h" "/ok").2.2.1 rfl⟩

/-! ## C2: access-token caching -/

/-- C2: while a truthy access token is cached and the current time is strictly
below the cached expiry, `_authenticate` issues no token-endpoint request,
leaves the client state untouched and returns the identical cached token;
when the token is absent/empty or the time has reached the expiry, it issues
a new token-endpoint request. -/
theorem claim_C2_token_caching (w : World) (st : ClientState) (tr : Trace) (s : String) :
    (st.access_token = some s → s ≠ "" → w.timeline tr.clock < st.token_expiry →
      pyAuthenticate w st tr = (.ok s, st, { tr with clock := tr.clock + 1 }))
    ∧ ((truthyOpt st.access_token = false ∨ st.token_expiry ≤ w.timeline tr.clock) →
      ((pyAuthenticate w st tr).2.2).tokenCalls = tr.tokenCalls + 1) :=
  ⟨fun hs hne hlt => pyAuthenticate_cacheHit w st tr s hs hne hlt,
   fun h => pyAuthenticate_miss_tokenCalls w st tr h⟩

/-- A world whose token endpoint always succeeds with token `fresh`. -/
def wTok : World :=
  { timeline := fun _ => 10
    tokenResponses := fun _ => .ok ⟨200, some ⟨some "fresh", some 1000⟩⟩
    csrfResponses := fun _ => .ok ⟨200, some "csrf1"⟩
    mainResponses := fun _ => .ok ⟨200, "ok", [("Content-Type", "text/plain")], none⟩ }

/-- A client state holding a cached token valid until time 100. -/
def stCached : ClientState := { access_token := some "cached", token_expiry := 100, csrf_token := none }

/-- C2, witness: at time 10 with expiry 100 the cached token is returned with
no token-endpoint call; from the fresh (empty) state a call is issued. -/
theorem claim_C2_witness :
    pyAuthenticate wTok stCached trace0 = (.ok "cached", stCached, { trace0 with clock := 1 }) ∧
    ((pyAuthenticate wTok freshClientState trace0).2.2).tokenCalls = trace0.tokenCalls + 1 :=
  ⟨(claim_C2_token_caching wTok stCached trace0 "cached").1 rfl (by decide) (by decide),
   (claim_C2_token_caching wTok freshClientState trace0 "").2 (Or.inl rfl)⟩

/-! ## C3: expiry margin -/

/-- C3: a successful token response with `expires_in = E` received at time `T`
sets the cached expiry to exactly `T + E − 300`; on the resulting state the
token is treated as valid (cache hit, no request) at any time strictly below
`T + E − 300`, and as expired (a new token-endpoint request) at any time at
or after it. -/
theorem claim_C3_expiry_margin (w : World) (st : ClientState) (tr : Trace)
    (status : Nat) (tok : String) (E T : Int)
    (hresp : w.tokenResponses tr.tokenCalls = .ok ⟨status, some ⟨some tok, some E⟩⟩)
    (hstatus : raisesForStatus status = false)
    (htok : tok ≠ "")
    (hT : w.timeline tr.clock = T) :
    ∃ st1, authRefresh w st tr =
        (.ok tok, st1, { tr with tokenCalls := tr.tokenCalls + 1, clock := tr.clock + 1 }) ∧
      st1.access_token = some tok ∧
      st1.token_expiry = T + E - 300 ∧
      (∀ (w' : World) (tr' : Trace),
        (w'.timeline tr'.clock < T + E - 300 →
          pyAuthenticate w' st1 tr' = (.ok tok, st1, { tr' with clock := tr'.clock + 1 })) ∧
        (T + E - 300 ≤ w'.timeline tr'.clock →
          ((pyAuthenticate w' st1 tr').2.2).tokenCalls = tr'.tokenCalls + 1)) := by
  have hs := authRefresh_success w st tr ⟨status, some ⟨some tok, some E⟩⟩
    ⟨some tok, some E⟩ tok hresp hstatus rfl rfl
  refine ⟨_, hs, rfl, ?_, ?_⟩
  · show w.timeline tr.clock + (some E).getD 3600 - 300 = T + E - 300
    rw [hT]
    rfl
  · intro w' tr'
    constructor
    · intro hlt
      refine pyAuthenticate_cacheHit w' _ tr' tok rfl htok ?_
      show w'.timeline tr'.clock < w.timeline tr.clock + (some E).getD 3600 - 300
      rw [hT]
      exact hlt
    · intro hge
      refine pyAuthenticate_miss_tokenCalls w' _ tr' (Or.inr ?_)
      show w.timeline tr.clock + (some E).getD 3600 - 300 ≤ w'.timeline tr'.clock
      rw [hT]
      exact hge

/-- A world whose token endpoint answers with `expires_in = 1000` at time 50. -/
def wTok50 : World :=
  { timeline := fun _ => 50
    tokenResponses := fun _ => .ok ⟨200, some ⟨some "t7", some 1000⟩⟩
    csrfResponses := fun _ => .ok ⟨200, some "csrf1"⟩
    mainResponses := fun _ => .ok ⟨200, "ok", [], none⟩ }

/-- C3, witness: a concrete refresh at time 50 with `expires_in = 1000`. -/
theorem claim_C3_witness :
    ∃ st1, authRefresh wTok50 freshClientState trace0 =
        (.ok "t7", st1,
          { trace0 with tokenCalls := trace0.tokenCalls + 1, clock := trace0.clock + 1 }) ∧
      st1.access_token = some "t7" ∧
      st1.token_expiry = 50 + 1000 - 300 ∧
      (∀ (w' : World) (tr' : Trace),
        (w'.timeline tr'.clock < 50 + 1000 - 300 →
          pyAuthenticate w' st1 tr' = (.ok "t7", st1, { tr' with clock := tr'.clock + 1 })) ∧
        (50 + 1000 - 300 ≤ w'.timeline tr'.clock →
          ((pyAuthenticate w' st1 tr').2.2).tokenCalls = tr'.tokenCalls + 1)) :=
  claim_C3_expiry_margin wTok50 freshClientState trace0 200 "t7" 1000 50
    rfl rfl (by decide) rfl

/-! ## C5: authentication failure conditions -/

/-- A world whose token endpoint answers `304 Not Modified` with a valid
token body. -/
def wTok304 : World :=
  { timeline := fun _ => 0
    tokenResponses := fun _ => .ok ⟨304, some ⟨some "tok", some 1000⟩⟩
    csrfResponses := fun _ => .ok ⟨200, some "csrf1"⟩
    mainResponses := fun _ => .ok ⟨200, "ok", [], none⟩ }

/-- C5, counterexample: `raise_for_status()` raises only on 4xx/5xx, not on
every non-2xx status.  A `304` token response with a valid body is non-2xx,
yet `_authenticate` succeeds instead of failing, refuting the claim that it
fails exactly on non-2xx. -/
theorem claim_C5_counterexample :
    (¬(200 ≤ 304 ∧ 304 < 300)) ∧
    (pyAuthenticate wTok304 freshClientState trace0).1 = .ok "tok" :=
  ⟨by decide, rfl⟩

/-- C5, amended: given that the token endpoint returned a response at all,
`_authenticate` fails exactly when the status is 4xx/5xx (what
`raise_for_status` raises on, rather than every non-2xx), or the body is not
valid JSON, or the body lacks an `access_token` field; on success it caches
the returned token and the computed expiry. -/
theorem claim_C5_auth_error (w : World) (st : ClientState) (tr : Trace)
    (r : TokenResponse)
    (hresp : w.tokenResponses tr.tokenCalls = .ok r) :
    ((∃ ex, (authRefresh w st tr).1 = .error ex) ↔
      ((400 ≤ r.status ∧ r.status < 600) ∨ r.body = none ∨
        ∃ d, r.body = some d ∧ d.access_token = none))
    ∧ (∀ tok, (authRefresh w st tr).1 = .ok tok →
        (authRefresh w st tr).2.1.access_token = some tok ∧
        ∃ d, r.body = some d ∧ d.access_token = some tok ∧
          (authRefresh w st tr).2.1.token_expiry =
            w.timeline tr.clock + d.expires_in.getD 3600 - 300) := by
  cases hrs : raisesForStatus r.status with
  | true =>
    have heq := authRefresh_httpError w st tr r hresp hrs
    rw [heq]
    refine ⟨⟨fun _ => Or.inl ((raisesForStatus_eq_true_iff r.status).1 hrs),
            fun _ => ⟨.httpError r.status, rfl⟩⟩, ?_⟩
    intro tok htok
    exact absurd htok (by simp)
  | false =>
    cases hb : r.body with
    | none =>
      have heq := authRefresh_jsonError w st tr r hresp hrs hb
      rw [heq]
      refine ⟨⟨fun _ => Or.inr (Or.inl rfl), fun _ => ⟨.jsonError, rfl⟩⟩, ?_⟩
      intro tok htok
      exact absurd htok (by simp)
    | some d =>
      cases ha : d.access_token with
      | none =>
        have heq := authRefresh_keyError w st tr r d hresp hrs hb ha
        rw [heq]
        refine ⟨⟨fun _ => Or.inr (Or.inr ⟨d, rfl, ha⟩), fun _ => ⟨.keyError, rfl⟩⟩, ?_⟩
        intro tok htok
        exact absurd htok (by simp)
      | some tok0 =>
        have heq := authRefresh_success w st tr r d tok0 hresp hrs hb ha
        rw [heq]
        constructor
        · constructor
          · rintro ⟨ex, hex⟩
            exact absurd hex (by simp)
          · intro hdisj
            rcases hdisj with h | h | ⟨d', hd', ha'⟩
            · exact absurd ((raisesForStatus_eq_true_iff r.status).2 h)
                (by rw [hrs]; simp)
            · exact Option.noConfusion h
            · injection hd' with hd''
              subst hd''
              rw [ha] at ha'
              exact Option.noConfusion ha'
        · intro tok htok
          have h' : Except.ok (ε := PyExn) tok0 = Except.ok tok := htok
          injection h' with h''
          subst h''
          exact ⟨rfl, d, rfl, ha, rfl⟩

/-- C5, witness: a 401 token response fails, a 200 response with a token
succeeds and caches token and expiry. -/
theorem claim_C5_witness :
    (∃ ex, (authRefresh ⟨fun _ => 0, fun _ => .ok ⟨401, none⟩, fun _ => .ok ⟨200, some "c"⟩,
        fun _ => .ok ⟨200, "ok", [], none⟩⟩ freshClientState trace0).1 = .error ex) ∧
    ((authRefresh wTok50 freshClientState trace0).2.1.access_token = some "t7" ∧
      ∃ d, (some ⟨some "t7", some 1000⟩ : Option TokenData) = some d ∧
        d.access_token = some "t7" ∧
        (authRefresh wTok50 freshClientState trace0).2.1.token_expiry =
          wTok50.timeline trace0.clock + d.expires_in.getD 3600 - 300) :=
  ⟨((claim_C5_auth_error _ freshClientState trace0 ⟨401, none⟩ rfl).1).2
      (Or.inl (by decide)),
   ((claim_C5_auth_error wTok50 freshClientState trace0 ⟨200, some ⟨some "t7", some 1000⟩⟩
      rfl).2) "t7" rfl⟩

/-! ## C1: the one-shot CSRF retry -/

/-- C1: for a mutating request, when the first upstream response is a 403
whose body text contains the case-insensitive substring CSRF, the client
forces a fresh CSRF fetch and re-issues the request exactly once, returning
the outcome of the second attempt as-is, two upstream requests in total; in every
other response case exactly one upstream request is issued and its response
returned. -/
theorem claim_C1_retry_once (w : World) (st : ClientState) (tr : Trace)
    (method url : String) (hdrs : Headers) (payload : Option Json) (r : HttpResponse)
    (hmut : isMutating method = true)
    (hfirst : w.mainResponses tr.mainReqs.length = .ok r) :
    ((r.status_code = 403 ∧ strContains (strToUpper r.text) "CSRF" = true) →
      ∀ (t : Option String) (st2 : ClientState) (tr2 : Trace),
        pyFetchCsrf w st
            { tr with mainReqs := tr.mainReqs ++ [⟨method, url, hdrs, payload⟩] } =
          (.ok t, st2, tr2) →
        issueAndRetry w st tr method url hdrs payload =
          sendMain w st2 tr2 method url { hdrs with x_csrf_token := some t } payload ∧
        ((issueAndRetry w st tr method url hdrs payload).2.2).mainReqs.length =
          tr.mainReqs.length + 2)
    ∧ (¬(r.status_code = 403 ∧ strContains (strToUpper r.text) "CSRF" = true) →
      issueAndRetry w st tr method url hdrs payload =
        (.ok r, st, { tr with mainReqs := tr.mainReqs ++ [⟨method, url, hdrs, payload⟩] }) ∧
      ((issueAndRetry w st tr method url hdrs payload).2.2).mainReqs.length =
        tr.mainReqs.length + 1) := by
  constructor
  · intro hc t st2 tr2 hfetch
    have hcond : retryCond r = true := (retryCond_eq_true_iff r).2 hc
    have heq0 := issueAndRetry_retry w st tr method url hdrs payload r hfirst hcond
    rw [hfetch] at heq0
    have heq : issueAndRetry w st tr method url hdrs payload =
        sendMain w st2 tr2 method url { hdrs with x_csrf_token := some t } payload := heq0
    refine ⟨heq, ?_⟩
    rw [heq, sendMain_trace]
    have hm := pyFetchCsrf_mainReqs w st
      { tr with mainReqs := tr.mainReqs ++ [⟨method, url, hdrs, payload⟩] }
    rw [hfetch] at hm
    have hm2 : tr2.mainReqs = tr.mainReqs ++ [⟨method, url, hdrs, payload⟩] := hm
    simp [hm2]
  · intro hc
    have hcond : retryCond r = false := by
      cases h : retryCond r with
      | false => rfl
      | true => exact absurd ((retryCond_eq_true_iff r).1 h) hc
    have heq := issueAndRetry_noRetry w st tr method url hdrs payload r hfirst hcond
    refine ⟨heq, ?_⟩
    rw [heq]
    simp

/-- The first-attempt 403 response whose body mentions CSRF. -/
def rCsrf403 : HttpResponse := ⟨403, "csrf token expired", [], none⟩

/-- A world whose first main request is answered by `rCsrf403` and every
later one by a 200, with working token and CSRF endpoints. -/
def wRetry : World :=
  { timeline := fun _ => 10
    tokenResponses := fun _ => .ok ⟨200, some ⟨some "fresh", some 1000⟩⟩
    csrfResponses := fun _ => .ok ⟨200, some "csrf2"⟩
    mainResponses := fun n => if n = 0 then .ok rCsrf403 else .ok ⟨200, "ok", [], none⟩ }

/-- The headers of a concrete mutating request carrying a cached CSRF token. -/
def hdrsPost : Headers := ⟨"Bearer cached", "true", "application/json", some (some "csrf0")⟩

/-- C1, witness: against `wRetry` a POST issues exactly two upstream
requests. -/
theorem claim_C1_witness :
    ((issueAndRetry wRetry stCached trace0 "POST" "https://h/x" hdrsPost none).2.2).mainReqs.length =
      trace0.mainReqs.length + 2 := by
  have h := (claim_C1_retry_once wRetry stCached trace0 "POST" "https://h/x" hdrsPost none
    rCsrf403 rfl rfl).1 ⟨rfl, rfl⟩
  exact (h _ _ _ rfl).2

/-! ## C10: the retry changes only the CSRF header -/

/-- C10: when the CSRF retry fires and the forced fetch succeeds, the run
issues exactly the first request followed by a second request identical to it
in method, URL, payload and every header except `x-csrf-token`, which becomes
the freshly fetched value; in particular the Authorization header still
carries the bearer token captured before the first attempt, even though the
forced fetch re-runs `_authenticate` and may refresh the cached token. -/
theorem claim_C10_retry_frame (w : World) (st : ClientState) (tr : Trace)
    (method url : String) (hdrs : Headers) (payload : Option Json) (r : HttpResponse)
    (t : Option String) (st2 : ClientState) (tr2 : Trace)
    (hfirst : w.mainResponses tr.mainReqs.length = .ok r)
    (hcond : r.status_code = 403 ∧ strContains (strToUpper r.text) "CSRF" = true)
    (hfetch : pyFetchCsrf w st
        { tr with mainReqs := tr.mainReqs ++ [⟨method, url, hdrs, payload⟩] } =
      (.ok t, st2, tr2)) :
    ((issueAndRetry w st tr method url hdrs payload).2.2).mainReqs =
      tr.mainReqs ++
        [⟨method, url, hdrs, payload⟩,
         ⟨method, url, { hdrs with x_csrf_token := some t }, payload⟩] := by
  have hcond' : retryCond r = true := (retryCond_eq_true_iff r).2 hcond
  have heq0 := issueAndRetry_retry w st tr method url hdrs payload r hfirst hcond'
  rw [hfetch] at heq0
  have heq : issueAndRetry w st tr method url hdrs payload =
      sendMain w st2 tr2 method url { hdrs with x_csrf_token := some t } payload := heq0
  rw [heq, sendMain_trace]
  have hm := pyFetchCsrf_mainReqs w st
    { tr with mainReqs := tr.mainReqs ++ [⟨method, url, hdrs, payload⟩] }
  rw [hfetch] at hm
  have hm2 : tr2.mainReqs = tr.mainReqs ++ [⟨method, url, hdrs, payload⟩] := hm
  simp [hm2]

/-- A client state whose access token is stale at time 10, so the retry
refetch re-authenticates. -/
def stStale : ClientState := { access_token := some "old", token_expiry := 5, csrf_token := some "c0" }

/-- C10, witness: with a stale access token the forced fetch refreshes the
token internally, yet the re-issued request repeats the original headers with
only `x-csrf-token` replaced. -/
theorem claim_C10_witness :
    ((issueAndRetry wRetry stStale trace0 "POST" "https://h/x" hdrsPost none).2.2).mainReqs =
      trace0.mainReqs ++
        [⟨"POST", "https://h/x", hdrsPost, none⟩,
         ⟨"POST", "https://h/x", { hdrsPost with x_csrf_token := some (some "csrf2") }, none⟩] :=
  claim_C10_retry_frame wRetry stStale trace0 "POST" "https://h/x" hdrsPost none rCsrf403
    (some "csrf2") _ _ rfl ⟨rfl, rfl⟩ rfl

/-! ## C6: headers attached per method -/

theorem pySyncRequest_ok (w : World) (baseUrl : String) (st : ClientState) (tr : Trace)
    (m e : String) (p : Option Json) (atok : String) (st1 : ClientState) (tr1 : Trace)
    (hauth : pyAuthenticate w st tr = (.ok atok, st1, tr1)) :
    pySyncRequest w baseUrl st tr m e p =
      (if isMutating m then
        (if truthyOpt st1.csrf_token then
          issueAndRetry w st1 tr1 (strToUpper m) (buildUrl baseUrl e)
            ⟨"Bearer " ++ atok, "true", "application/json", some st1.csrf_token⟩ p
        else
          match pyFetchCsrf w st1 tr1 with
          | (.error err, st2, tr2) => (.error err, st2, tr2)
          | (.ok t, st2, tr2) =>
            issueAndRetry w st2 tr2 (strToUpper m) (buildUrl baseUrl e)
              ⟨"Bearer " ++ atok, "true", "application/json", some t⟩ p)
      else
        issueAndRetry w st1 tr1 (strToUpper m) (buildUrl baseUrl e)
          ⟨"Bearer " ++ atok, "true", "application/json", none⟩ p) := by
  simp only [pySyncRequest]
  rw [hauth]

/-- C6: on every `_sync_request` call, mutating methods carry an
`x-csrf-token` header valued at the cached CSRF token when one is (truthily)
cached, or at the freshly fetched token otherwise; non-mutating methods carry
no `x-csrf-token` key; and in all cases the request carries the bearer
Authorization header from `_authenticate` (plus the custom-auth marker and
JSON content type). -/
theorem claim_C6_csrf_header (w : World) (baseUrl : String) (st : ClientState)
    (tr : Trace) (method endpoint : String) (payload : Option Json) (atok : String)
    (st1 : ClientState) (tr1 : Trace)
    (hauth : pyAuthenticate w st tr = (.ok atok, st1, tr1)) :
    (isMutating method = true → truthyOpt st1.csrf_token = true →
      ∃ rest, ((pySyncRequest w baseUrl st tr method endpoint payload).2.2).mainReqs =
        tr1.mainReqs ++
          ⟨strToUpper method, buildUrl baseUrl endpoint,
           ⟨"Bearer " ++ atok, "true", "application/json", some st1.csrf_token⟩,
           payload⟩ :: rest)
    ∧ (isMutating method = true → truthyOpt st1.csrf_token = false →
      ∀ (t : Option String) (st2 : ClientState) (tr2 : Trace),
        pyFetchCsrf w st1 tr1 = (.ok t, st2, tr2) →
        ∃ rest, ((pySyncRequest w baseUrl st tr method endpoint payload).2.2).mainReqs =
          tr2.mainReqs ++
            ⟨strToUpper method, buildUrl baseUrl endpoint,
             ⟨"Bearer " ++ atok, "true", "application/json", some t⟩,
             payload⟩ :: rest)
    ∧ (isMutating method = false →
      ∃ rest, ((pySyncRequest w baseUrl st tr method endpoint payload).2.2).mainReqs =
        tr1.mainReqs ++
          ⟨strToUpper method, buildUrl baseUrl endpoint,
           ⟨"Bearer " ++ atok, "true", "application/json", none⟩,
           payload⟩ :: rest) := by
  rw [pySyncRequest_ok w baseUrl st tr method endpoint payload atok st1 tr1 hauth]
  refine ⟨?_, ?_, ?_⟩
  · intro hm hcsrf
    simp only [hm, hcsrf, if_true]
    exact issueAndRetry_mainReqs_shape w st1 tr1 _ _ _ payload
  · intro hm hcsrf t st2 tr2 hfetch
    simp only [hm, hcsrf, if_true, Bool.false_eq_true, if_false]
    rw [hfetch]
    exact issueAndRetry_mainReqs_shape w st2 tr2 _ _ _ payload
  · intro hm
    simp only [hm, Bool.false_eq_true, if_false]
    exact issueAndRetry_mainReqs_shape w st1 tr1 _ _ _ payload

/-- A client state with a valid access token and a cached CSRF token. -/
def stC6 : ClientState :=
  { access_token := some "cached", token_expiry := 100, csrf_token := some "c0" }

/-- C6, witness: a lowercase `post` with a cached CSRF token sends the
uppercased method with bearer and CSRF headers; a `GET` sends no
`x-csrf-token` key. -/
theorem claim_C6_witness :
    (∃ rest, ((pySyncRequest wTok "https://h" stC6 trace0 "post" "/x" none).2.2).mainReqs =
      ({ trace0 with clock := 1 } : Trace).mainReqs ++
        ⟨"POST", buildUrl "https://h" "/x",
         ⟨"Bearer " ++ "cached", "true", "application/json", some (some "c0")⟩,
         none⟩ :: rest)
    ∧ (∃ rest, ((pySyncRequest wTok "https://h" stC6 trace0 "GET" "/x" none).2.2).mainReqs =
      ({ trace0 with clock := 1 } : Trace).mainReqs ++
        ⟨"GET", buildUrl "https://h" "/x",
         ⟨"Bearer " ++ "cached", "true", "application/json", none⟩,
         none⟩ :: rest) :=
  ⟨(claim_C6_csrf_header wTok "https://h" stC6 trace0 "post" "/x" none "cached" stC6
      { trace0 with clock := 1 } rfl).1 rfl rfl,
   (claim_C6_csrf_header wTok "https://h" stC6 trace0 "GET" "/x" none "cached" stC6
      { trace0 with clock := 1 } rfl).2.2 rfl⟩

/-! ## C7: content-type based body decoding -/

/-- C7: for every upstream response the relay returns, if the Content-Type
header (case-insensitive lookup, defaulted to the empty string) contains
`application/json`, the envelope body is the parsed JSON value with the raw
text as fallback when parsing fails; for any other content type the body is
always the raw text, whatever `response.json()` would have produced. -/
theorem claim_C7_body_decoding (w : World) (baseUrl method endpoint : String)
    (payload : Option Json) (r : HttpResponse)
    (hrun : (relayRun w baseUrl method endpoint payload).1 = .ok r) :
    (strContains ((headerGet r.headers "Content-Type").getD "") "application/json" = true →
      relay w baseUrl method endpoint payload =
        .ok r.status_code
          (match r.jsonBody with
           | some j => Body.json j
           | none => Body.text r.text)
          r.headers)
    ∧ (strContains ((headerGet r.headers "Content-Type").getD "") "application/json" = false →
      relay w baseUrl method endpoint payload = .ok r.status_code (Body.text r.text) r.headers) := by
  simp only [relay]
  rcases hR : relayRun w baseUrl method endpoint payload with ⟨res, stx, trx⟩
  rw [hR] at hrun
  have hres : res = .ok r := hrun
  subst hres
  constructor
  · intro hct
    show RelayResult.ok r.status_code (decodeBody r) r.headers = _
    have hbd : decodeBody r =
        (match r.jsonBody with
         | some j => Body.json j
         | none => Body.text r.text) := by
      simp [decodeBody, hct]
    rw [hbd]
  · intro hct
    show RelayResult.ok r.status_code (decodeBody r) r.headers = _
    have hbd : decodeBody r = Body.text r.text := by
      simp [decodeBody, hct]
    rw [hbd]

/-- A JSON-typed upstream response whose body parses to the number 5. -/
def rJson : HttpResponse := ⟨200, "5", [("Content-Type", "application/json")], some (.num 5)⟩

/-- A plain-text upstream response whose body happens to be valid JSON. -/
def rText : HttpResponse := ⟨200, "5", [("Content-Type", "text/plain")], some (.num 5)⟩

/-- A working world whose main response is `rJson`. -/
def wJson : World :=
  { timeline := fun _ => 10
    tokenResponses := fun _ => .ok ⟨200, some ⟨some "fresh", some 1000⟩⟩
    csrfResponses := fun _ => .ok ⟨200, some "csrf1"⟩
    mainResponses := fun _ => .ok rJson }

/-- A working world whose main response is `rText`. -/
def wText : World :=
  { timeline := fun _ => 10
    tokenResponses := fun _ => .ok ⟨200, some ⟨some "fresh", some 1000⟩⟩
    csrfResponses := fun _ => .ok ⟨200, some "csrf1"⟩
    mainResponses := fun _ => .ok rText }

/-- C7, witness: a JSON content type yields the parsed body; a text/plain
content type yields the raw text even though it would parse as JSON. -/
theorem claim_C7_witness :
    relay wJson "https://h" "GET" "/v" none =
      .ok 200 (Body.json (Json.num 5)) [("Content-Type", "application/json")] ∧
    relay wText "https://h" "GET" "/v" none =
      .ok 200 (Body.text "5") [("Content-Type", "text/plain")] :=
  ⟨(claim_C7_body_decoding wJson "https://h" "GET" "/v" none rJson rfl).1 rfl,
   (claim_C7_body_decoding wText "https://h" "GET" "/v" none rText rfl).2 rfl⟩

/-! ## C8: transport failures versus upstream application errors -/

/-- C8: at the relay boundary, a transport timeout maps to a 504 relay error
and a connection failure to a 502; any response the upstream actually
returned — whatever its status — is relayed as a success envelope carrying
the upstream status, decoded body and headers, never as a relay-level
error. -/
theorem claim_C8_transport_mapping (w : World) (baseUrl method endpoint : String)
    (payload : Option Json) :
    (∀ r : HttpResponse, (relayRun w baseUrl method endpoint payload).1 = .ok r →
      relay w baseUrl method endpoint payload =
        .ok r.status_code (decodeBody r) r.headers)
    ∧ ((relayRun w baseUrl method endpoint payload).1 = .error .timeout →
      relay w baseUrl method endpoint payload = .httpException 504 "SAC API timeout")
    ∧ ((relayRun w baseUrl method endpoint payload).1 = .error .connectionError →
      relay w baseUrl method endpoint payload = .httpException 502 "Cannot connect to SAC") := by
  refine ⟨?_, ?_, ?_⟩
  · intro r hr
    simp only [relay]
    rcases hR : relayRun w baseUrl method endpoint payload with ⟨res, stx, trx⟩
    rw [hR] at hr
    have hres : res = .ok r := hr
    subst hres
    rfl
  · intro hr
    simp only [relay]
    rcases hR : relayRun w baseUrl method endpoint payload with ⟨res, stx, trx⟩
    rw [hR] at hr
    have hres : res = .error .timeout := hr
    subst hres
    rfl
  · intro hr
    simp only [relay]
    rcases hR : relayRun w baseUrl method endpoint payload with ⟨res, stx, trx⟩
    rw [hR] at hr
    have hres : res = .error .connectionError := hr
    subst hres
    rfl

/-- A world whose main request times out. -/
def wMainTimeout : World :=
  { timeline := fun _ => 10
    tokenResponses := fun _ => .ok ⟨200, some ⟨some "fresh", some 1000⟩⟩
    csrfResponses := fun _ => .ok ⟨200, some "csrf1"⟩
    mainResponses := fun _ => .timeout }

/-- A world whose main request fails to connect. -/
def wMainConn : World :=
  { timeline := fun _ => 10
    tokenResponses := fun _ => .ok ⟨200, some ⟨some "fresh", some 1000⟩⟩
    csrfResponses := fun _ => .ok ⟨200, some "csrf1"⟩
    mainResponses := fun _ => .connError }

/-- A working world whose main response is a 503 from the upstream. -/
def w503 : World :=
  { timeline := fun _ => 10
    tokenResponses := fun _ => .ok ⟨200, some ⟨some "fresh", some 1000⟩⟩
    csrfResponses := fun _ => .ok ⟨200, some "csrf1"⟩
    mainResponses := fun _ => .ok ⟨503, "unavailable", [], none⟩ }

/-- C8, witness: an upstream 503 is relayed as a success envelope with
status 503, while a timeout and a connection failure map to 504 and 502. -/
theorem claim_C8_witness :
    relay w503 "https://h" "GET" "/v" none =
      .ok 503 (decodeBody ⟨503, "unavailable", [], none⟩) [] ∧
    relay wMainTimeout "https://h" "GET" "/v" none = .httpException 504 "SAC API timeout" ∧
    relay wMainConn "https://h" "GET" "/v" none = .httpException 502 "Cannot connect to SAC" :=
  ⟨(claim_C8_transport_mapping w503 "https://h" "GET" "/v" none).1 ⟨503, "unavailable", [], none⟩ rfl,
   (claim_C8_transport_mapping wMainTimeout "https://h" "GET" "/v" none).2.1 rfl,
   (claim_C8_transport_mapping wMainConn "https://h" "GET" "/v" none).2.2 rfl⟩

/-! ## C9: a fresh client per relay call -/

/-- C9: every `POST /api/request` call runs on a brand-new `SACClient` whose
token state starts empty (no access token, expiry 0, no CSRF token), so no
token carries over between two relay calls; and every relay run issues at
least one token-endpoint request, i.e. it re-acquires the token afresh. -/
theorem claim_C9_fresh_client (w : World) (baseUrl method endpoint : String)
    (payload : Option Json) :
    relayRun w baseUrl method endpoint payload =
      pySyncRequest w baseUrl freshClientState trace0 method endpoint payload ∧
    freshClientState.access_token = none ∧
    freshClientState.token_expiry = 0 ∧
    freshClientState.csrf_token = none ∧
    1 ≤ ((relayRun w baseUrl method endpoint payload).2.2).tokenCalls := by
  refine ⟨rfl, rfl, rfl, rfl, ?_⟩
  have h1 : ((pyAuthenticate w freshClientState trace0).2.2).tokenCalls =
      trace0.tokenCalls + 1 :=
    pyAuthenticate_miss_tokenCalls w freshClientState trace0 (Or.inl rfl)
  have h2 := pySyncRequest_tokenCalls_le w baseUrl freshClientState trace0
    method endpoint payload
  calc 1 = trace0.tokenCalls + 1 := rfl
  _ = ((pyAuthenticate w freshClientState trace0).2.2).tokenCalls := h1.symm
  _ ≤ ((relayRun w baseUrl method endpoint payload).2.2).tokenCalls := h2
